import Mathlib

/-!
Verification of the My_Website front-end widgets:
- `AutoForgeTerminal` (chat terminal, `src/unnamed/part_000` lines 1-166),
- `BitlockerPie` (rollout pie, `src/unnamed/part_000` lines 167-353),
- `CloudLabPanel` (diagnostics panel, `src/src/islands/CloudLabPanel.tsx`).

The embedding models JavaScript runtime values with an inductive `JVal`
(distinguishing `undefined` from `null`, which the source's nullish
coalescing `??` depends on), models JS property access — which throws a
TypeError on `null`/`undefined` receivers — in the `Except Unit` monad,
and models each widget's event handler as a pure state-transition
function parameterised over the network outcome supplied by the
environment (`fetch` results are external inputs).  JSON numbers are
modelled as integers (no claim depends on non-integral numerics) and
the pie-chart fractions, computed with JS floating division in the
source, are modelled exactly over `ℚ`.
-/

namespace Site

/-- A JavaScript runtime value as the widgets observe it: `undefined`
is distinct from `null` (both are "nullish"), numbers are modelled as
integers. -/
inductive JVal where
  | undefined
  | jnull
  | bool (b : Bool)
  | num (n : Int)
  | str (s : String)
  | arr (elems : List JVal)
  | obj (fields : List (String × JVal))
deriving Repr

/-- JS "nullish" test: exactly `undefined` and `null`, the values
skipped by the `??` operator. -/
def JVal.isNullish : JVal → Bool
  | .undefined => true
  | .jnull => true
  | _ => false

/-- JS truthiness, as used by `reply || "(no content)"` and
`raw || "(empty response)"` in `send`. -/
def JVal.truthy : JVal → Bool
  | .undefined => false
  | .jnull => false
  | .bool b => b
  | .num n => n != 0
  | .str s => s ≠ ""
  | .arr _ => true
  | .obj _ => true

/-- Property lookup on the field list of a JS object: absent keys give
`undefined`.  (Objects produced by `JSON.parse` have unique keys.) -/
def lookupField (fs : List (String × JVal)) (k : String) : JVal :=
  match fs.find? (fun p => p.1 == k) with
  | some p => p.2
  | none => .undefined

/-- Plain JS property access `v.k`: throws a TypeError (modelled as
`Except.error ()`) when the receiver is `null` or `undefined`; on any
other non-object it yields `undefined`. -/
def getProp : JVal → String → Except Unit JVal
  | .undefined, _ => .error ()
  | .jnull, _ => .error ()
  | .obj fs, k => .ok (lookupField fs k)
  | _, _ => .ok .undefined

/-- Optional-chaining property access `v?.k`: `undefined` on a nullish
receiver, otherwise ordinary access (which cannot throw on a
non-nullish receiver). -/
def optProp (v : JVal) (k : String) : JVal :=
  match v with
  | .undefined => .undefined
  | .jnull => .undefined
  | .obj fs => lookupField fs k
  | _ => .undefined

/-- Optional-chaining index access `v?.[i]`: `undefined` on a nullish
receiver; JS array indexing (out of range gives `undefined`), numeric
property access on objects, character indexing on strings. -/
def optIndex (v : JVal) (i : Nat) : JVal :=
  match v with
  | .undefined => .undefined
  | .jnull => .undefined
  | .arr xs => xs.getD i .undefined
  | .obj fs => lookupField fs (toString i)
  | .str s =>
    match s.toList.get? i with
    | some c => .str (String.mk [c])
    | none => .undefined
  | _ => .undefined

/-- The probe of `send` (part_000 lines 52-57):
`json.reply ?? json.content ?? json.message ??
 json.choices?.[0]?.message?.content ?? raw`,
left to right, each `??` skipping only nullish values.  A TypeError
(access on a nullish `json`) propagates as `Except.error`, landing in
the surrounding `catch`. -/
def probeReply (json : JVal) (raw : String) : Except Unit JVal :=
  match getProp json "reply" with
  | .error e => .error e
  | .ok r =>
    if r.isNullish then
      match getProp json "content" with
      | .error e => .error e
      | .ok c =>
        if c.isNullish then
          match getProp json "message" with
          | .error e => .error e
          | .ok m =>
            if m.isNullish then
              match getProp json "choices" with
              | .error e => .error e
              | .ok ch =>
                let nested := optProp (optProp (optIndex ch 0) "message") "content"
                if nested.isNullish then .ok (.str raw) else .ok nested
            else .ok m
        else .ok c
      else .ok r

/-- The whole reply-resolution block of `send` (part_000 lines 47-60).
`raw` is the response text; `parsed` is the outcome of `JSON.parse raw`
supplied by the environment (`none` models a parse exception; it is
consulted only when `raw` is non-empty, since the source evaluates
`raw ? JSON.parse(raw) : {}`).  The `catch` branch yields
`raw || "(empty response)"`. -/
def resolveReply (raw : String) (parsed : Option JVal) : JVal :=
  let attempt : Except Unit JVal :=
    if raw = "" then probeReply (.obj []) raw
    else
      match parsed with
      | some j => probeReply j raw
      | none => .error ()
  match attempt with
  | .ok v => v
  | .error _ => .str (if raw = "" then "(empty response)" else raw)

/-- The content stored in the appended assistant message
(part_000 line 63): `reply || "(no content)"`. -/
def assistantContent (reply : JVal) : JVal :=
  if reply.truthy then reply else .str "(no content)"

/-- Declarative restatement of the spec's precedence wording ("the
resolved text is the reply field if present, else the content field,
else the message field, else the nested first-choice message content
field, else the raw body text"), written over an object's field list,
to be compared with `resolveReply` by refinement. -/
def replyPrecedenceSpec (fs : List (String × JVal)) (raw : String) : JVal :=
  if ¬(lookupField fs "reply").isNullish then lookupField fs "reply"
  else if ¬(lookupField fs "content").isNullish then lookupField fs "content"
  else if ¬(lookupField fs "message").isNullish then lookupField fs "message"
  else
    let nested := optProp (optProp (optIndex (lookupField fs "choices") 0) "message") "content"
    if ¬nested.isNullish then nested else .str raw

theorem resolveReply_obj (fs : List (String × JVal)) (raw : String) (hraw : raw ≠ "") :
    resolveReply raw (some (.obj fs)) = replyPrecedenceSpec fs raw := by
  simp only [resolveReply, probeReply, getProp, replyPrecedenceSpec, hraw, if_neg]
  split_ifs <;> simp_all

/-! ## Chat terminal (`AutoForgeTerminal`, part_000 lines 1-166) -/

/-- The role tag of a chat message. -/
inductive Role where
  | user
  | assistant
  | system
deriving Repr, DecidableEq

/-- A chat message (`type Msg`).  At runtime the reply probe can store a
non-string value in `content` (the TS annotation `string`
notwithstanding), so `content` is a `JVal`. -/
structure Msg where
  role : Role
  content : JVal
deriving Repr

/-- The local state of `AutoForgeTerminal`: `messages`, `input`,
`busy`, `err`. -/
structure ChatState where
  messages : List Msg
  input : String
  busy : Bool
  err : Option String
deriving Repr

/-- The environment's verdict on the single `fetch` of one accepted
submission: either a response (its text, the outcome of `JSON.parse`
on that text, and the measured elapsed milliseconds) or a thrown
exception carrying an optional `message` string. -/
inductive FetchOutcome where
  | success (raw : String) (parsed : Option JVal) (ms : Nat)
  | failure (emsg : Option String)
deriving Repr

/-- Serialised role strings. -/
def roleStr : Role → String
  | .user => "user"
  | .assistant => "assistant"
  | .system => "system"

/-- One transcript element of the request body:
`{ role, content }` as produced by the map on line 33. -/
def wireMsg (m : Msg) : JVal :=
  .obj [("role", .str (roleStr m.role)), ("content", m.content)]

/-- The structured request body of `send` (part_000 lines 31-36): the
value passed to `JSON.stringify` — the prior transcript, each message
reduced to role and content, followed by the new user message.  Note
the source reads the `messages` state captured before the user-message
append, and appends the new element explicitly. -/
def requestBody (prior : List Msg) (text : String) : JVal :=
  .obj [("messages",
    .arr (prior.map wireMsg ++ [.obj [("role", .str "user"), ("content", .str text)]]))]

/-- The system status line of part_000 line 66. -/
def statusLine (ms : Nat) (origin : String) : String :=
  "✓ responded in " ++ toString ms ++ "ms from " ++ origin

/-- JS `String.prototype.trim`: strip leading and trailing whitespace
(executable over the character list). -/
def jsTrim (s : String) : String :=
  String.mk (((s.toList.dropWhile Char.isWhitespace).reverse.dropWhile
    Char.isWhitespace).reverse)

/-- The error string recorded on the failure path (line 68):
`e?.message || "Network error"` — an absent or falsy (empty) message
falls back to the literal. -/
def failErr (emsg : Option String) : String :=
  match emsg with
  | some m => if m = "" then "Network error" else m
  | none => "Network error"

/-- The `send` handler (part_000 lines 21-73) as a state transition.
Returns the new widget state together with the list of request bodies
issued (one per `fetch` call).  The guard rejects empty trimmed input
and a set busy flag untouched; otherwise the handler clears the error,
sets busy, appends the user message, clears the input, issues exactly
one POST, then on success appends one assistant and one system status
message, on failure records the error string and appends one system
failure message; `finally` clears busy on both paths. -/
def send (origin : String) (outcome : FetchOutcome) (s : ChatState) :
    ChatState × List JVal :=
  let text := jsTrim s.input
  if text = "" ∨ s.busy = true then (s, [])
  else
    let prior := s.messages
    let s1 : ChatState :=
      { messages := prior ++ [⟨.user, .str text⟩], input := "", busy := true, err := none }
    let body := requestBody prior text
    match outcome with
    | .success raw parsed ms =>
      let reply := resolveReply raw parsed
      let s2 := { s1 with
        messages := s1.messages ++ [Msg.mk .assistant (assistantContent reply)] }
      let s3 := { s2 with
        messages := s2.messages ++ [Msg.mk .system (.str (statusLine ms origin))],
        busy := false }
      (s3, [body])
    | .failure emsg =>
      let s2 := { s1 with
        err := some (failErr emsg),
        messages := s1.messages ++ [Msg.mk .system (.str "× request failed")],
        busy := false }
      (s2, [body])

/-! ## Rollout pie (`BitlockerPie`, part_000 lines 167-353) -/

/-- One day snapshot (`type Day`): counts of machines in each
encryption state. -/
structure Day where
  day : Int
  encrypted : Nat
  pending : Nat
  failed : Nat
deriving Repr

/-- Source `total` (part_000 lines 181-184): the denominator with its floor
of 1, `Math.max(1, d.encrypted + d.pending + d.failed)`. -/
def total (d : Day) : Nat :=
  max 1 (d.encrypted + d.pending + d.failed)

/-- The per-segment fraction `f` (line 189): `n / total`, JS floating
division modelled exactly over `ℚ`. -/
def frac (d : Day) (n : Nat) : ℚ :=
  (n : ℚ) / (total d : ℚ)

/-- One legend/arc segment as built on lines 190-194. -/
structure Seg where
  label : String
  val : Nat
  frac : ℚ
  color : String
deriving Repr

/-- The segment colors (part_000 lines 172-174). -/
def C_ENC : String := "#16c2c2"

/-- Slate color for the pending segment. -/
def C_PEN : String := "#94a3b8"

/-- Amber color for the failed segment. -/
def C_FAIL : String := "#fbbf24"

/-- Source `segs` (part_000 lines 187-195): the three proportional segments of
the current day's snapshot. -/
def segs (d : Day) : List Seg :=
  [⟨"Encrypted", d.encrypted, frac d d.encrypted, C_ENC⟩,
   ⟨"Pending", d.pending, frac d d.pending, C_PEN⟩,
   ⟨"Failed", d.failed, frac d d.failed, C_FAIL⟩]

/-- The interaction state of `BitlockerPie`: the day index `i`, the
`playing` flag, and the pending timeout.  `pending = some c` models a
scheduled `tick` whose closed-over `step` counter currently holds `c`
(the source keeps the timeout id in `tRef`; what matters for the state
machine is the counter the scheduled closure will increment). -/
structure PieState where
  i : Nat
  playing : Bool
  pending : Option Nat
deriving Repr, DecidableEq

/-- The `start` handler (part_000 lines 198-215): no-op while playing;
otherwise sets `playing`, resets the index to 0, and schedules the
first `tick` with the closure counter `step = 0`. -/
def start (s : PieState) : PieState :=
  if s.playing then s
  else { i := 0, playing := true, pending := some 0 }

/-- Firing the scheduled `tick` closure (part_000 lines 204-213) for a
snapshot array of length `len`: increment the counter; if it has
reached `len`, clear `playing` and the timeout; otherwise commit the
counter as the new index and reschedule. -/
def tick (len : Nat) (s : PieState) : PieState :=
  match s.pending with
  | none => s
  | some step =>
    let s' := step + 1
    if len ≤ s' then { s with playing := false, pending := none }
    else { s with i := s', pending := some s' }

/-- A user/timer event of the pie widget. -/
inductive PieOp where
  | press
  | fire
deriving Repr

/-- Apply one pie event. -/
def pieStep (len : Nat) (s : PieState) (op : PieOp) : PieState :=
  match op with
  | .press => start s
  | .fire => tick len s

/-- Apply a sequence of pie events. -/
def pieRun (len : Nat) (ops : List PieOp) (s : PieState) : PieState :=
  ops.foldl (pieStep len) s

/-- The initial state of the widget: `useState(0)`, `useState(false)`,
`useRef(null)`. -/
def pieInit : PieState :=
  { i := 0, playing := false, pending := none }

/-- The render's unconditional read of `days[i]` followed by field
access (part_000 lines 182-183, 188, 280, 283): on an out-of-range
index `days[i]` is `undefined` and the field access throws, modelled
as `Except.error`. -/
def totalE (days : List Day) (i : Nat) : Except Unit Nat :=
  match days.get? i with
  | none => .error ()
  | some d => .ok (max 1 (d.encrypted + d.pending + d.failed))

/-! ## Diagnostics panel (`CloudLabPanel.tsx`) -/

/-- Source `type CallResult`.  `fullJson` is `JVal.undefined` when never assigned
(empty body, parse failure, or exception path). -/
structure CallResult where
  url : String
  ok : Bool
  status : Nat
  statusText : String
  bodyPreview : String
  fullJson : JVal
  timeMs : Nat
  at_ : String
deriving Repr

/-- The environment's verdict on one diagnostics `fetch`: either a
response — status, status text, body text, and the outcome of
`JSON.parse` on that text (`none` models a parse exception) — or a
thrown exception carrying an optional `message`. -/
inductive HttpOutcome where
  | response (status : Nat) (statusText : String) (raw : String) (parsed : Option JVal)
  | exception (emsg : Option String)
deriving Repr

/-- The WHATWG `Response.ok` indicator read on line 133: status in the
range 200-299. -/
def respOk (status : Nat) : Bool :=
  200 ≤ status && status ≤ 299

/-- Whitespace collapse `s.replace(/\s+/g, " ").trim()` used by
`trimPreview` (line 286). -/
def collapseWs (s : String) : String :=
  String.intercalate " " ((s.split Char.isWhitespace).filter (fun t => t ≠ ""))

/-- Source `trimPreview` (lines 285-288): collapse whitespace, truncate at
`max_` characters with an ellipsis, and substitute `"(empty)"` for an
empty result. -/
def trimPreview (s : String) (max_ : Nat) : String :=
  let t := collapseWs s
  if max_ < t.length then (t.take max_) ++ " …"
  else if t = "" then "(empty)" else t

/-- JSON string quoting as used by `JSON.stringify`; escaping is
modelled for the backslash and the double quote (the source never
feeds control characters through the claims' inputs). -/
def jsonQuote (s : String) : String :=
  "\"" ++ String.join (s.toList.map (fun c =>
    if c = '\\' then "\\\\" else if c = '"' then "\\\"" else String.mk [c])) ++ "\""

/-- Two-space indentation of `JSON.stringify(v, null, 2)`. -/
def indentStr (n : Nat) : String :=
  String.mk (List.replicate (2 * n) ' ')

mutual
/-- Builtin `JSON.stringify(v, null, 2)` at nesting depth `d`: `none` models
the JS result `undefined` (top-level `undefined` has no serialisation);
inside arrays `undefined` serialises as `null`, inside objects the
entry is omitted. -/
def stringifyVal (d : Nat) : JVal → Option String
  | .undefined => none
  | .jnull => some "null"
  | .bool b => some (if b then "true" else "false")
  | .num n => some (toString n)
  | .str s => some (jsonQuote s)
  | .arr xs =>
    let items := stringifyList (d + 1) xs
    some (if items.isEmpty then "[]"
      else "[\n" ++
        String.intercalate ",\n" (items.map (fun it => indentStr (d + 1) ++ it)) ++
        "\n" ++ indentStr d ++ "]")
  | .obj fs =>
    let items := stringifyFields (d + 1) fs
    some (if items.isEmpty then "\x7b\x7d"
      else "\x7b\n" ++
        String.intercalate ",\n" (items.map (fun it => indentStr (d + 1) ++ it)) ++
        "\n" ++ indentStr d ++ "\x7d")

/-- Serialise the elements of an array (`undefined` becomes `null`). -/
def stringifyList (d : Nat) : List JVal → List String
  | [] => []
  | v :: vs => ((stringifyVal d v).getD "null") :: stringifyList d vs

/-- Serialise the entries of an object, omitting `undefined` values. -/
def stringifyFields (d : Nat) : List (String × JVal) → List String
  | [] => []
  | (k, v) :: fs =>
    match stringifyVal d v with
    | none => stringifyFields d fs
    | some s => (jsonQuote k ++ ": " ++ s) :: stringifyFields d fs
end

/-- Source `previewJson` (lines 289-292): `trimPreview(JSON.stringify(v, null, 2), 260)`;
`none` models the TypeError raised by calling `.replace` on the
`undefined` produced for a top-level `undefined`. -/
def previewJson (v : JVal) : Option String :=
  (stringifyVal 0 v).map (fun s => trimPreview s 260)

/-- The `call` helper (CloudLabPanel.tsx lines 128-142) as a function
of the environment outcome.  On a response it copies status,
statusText and the `ok` indicator, parses the body (an empty body
yields `fullJson = undefined`, whose preview attempt throws into the
inner catch), and any body-handling exception degrades the preview to
`trimPreview(raw)`.  On a fetch exception it records status 0,
`ok = false`, the exception message (`?? "Network error"`), and the
`"(request failed)"` preview. -/
def call (fullUrl : String) (outcome : HttpOutcome) (timeMs : Nat) (at_ : String) :
    CallResult :=
  match outcome with
  | .response st stx raw parsed =>
    let fj : JVal × String :=
      if raw = "" then (.undefined, trimPreview raw 260)
      else
        match parsed with
        | none => (.undefined, trimPreview raw 260)
        | some j =>
          match previewJson j with
          | some p => (j, p)
          | none => (j, trimPreview raw 260)
    { url := fullUrl, ok := respOk st, status := st, statusText := stx,
      bodyPreview := fj.2, fullJson := fj.1, timeMs := timeMs, at_ := at_ }
  | .exception emsg =>
    { url := fullUrl, ok := false, status := 0,
      statusText := (match emsg with | some m => m | none => "Network error"),
      bodyPreview := "(request failed)", fullJson := .undefined,
      timeMs := timeMs, at_ := at_ }

/-- The interaction state of `CloudLabPanelInner`: the panel `error`
and the call `history`. -/
structure PanelState where
  error : Option String
  history : List CallResult
deriving Repr

/-- The `run` click handler (CloudLabPanel.tsx lines 190-211) as a
state transition (the packet animation moves no widget state): clear
the error, perform the call on `root + path`, append the result to the
history, and for a non-ok result set the error line
`Request failed (status statusText)`. -/
def run (root path : String) (outcome : HttpOutcome) (timeMs : Nat) (at_ : String)
    (s : PanelState) : PanelState :=
  let s0 : PanelState := { s with error := none }
  let res := call (root ++ path) outcome timeMs at_
  let s1 : PanelState := { s0 with history := s0.history ++ [res] }
  if res.ok then s1
  else { s1 with
    error := some ("Request failed (" ++ toString res.status ++ " " ++ res.statusText ++ ")") }

/-- One diagnostics click event: the path suffix and the network
outcome with its observed timing metadata. -/
structure PanelEvent where
  path : String
  outcome : HttpOutcome
  timeMs : Nat
  at_ : String

/-- Apply a sequence of diagnostics clicks. -/
def panelRun (root : String) (evs : List PanelEvent) (s : PanelState) : PanelState :=
  evs.foldl (fun st ev => run root ev.path ev.outcome ev.timeMs ev.at_ st) s

/-- Apply a sequence of chat submissions. -/
def chatRun (evs : List (String × FetchOutcome)) (s : ChatState) : ChatState :=
  evs.foldl (fun st ev => (send ev.1 ev.2 st).1) s

/-! ## Claim theorems -/

/-- C1: reply extraction follows the fixed precedence reply → content →
message → first-choice nested content → raw body over every parsed
object body (refinement of `resolveReply` against the spec-worded
`replyPrecedenceSpec`); the spec's four concrete examples resolve to
"A", "B", "D" and the raw text respectively; and an empty body is
displayed as the "(no content)" placeholder. -/
theorem c1_reply_extraction_precedence :
    (∀ (fs : List (String × JVal)) (raw : String), raw ≠ "" →
      resolveReply raw (some (.obj fs)) = replyPrecedenceSpec fs raw) ∧
    resolveReply "\x7b\"reply\":\"A\",\"content\":\"B\"\x7d"
      (some (.obj [("reply", .str "A"), ("content", .str "B")])) = .str "A" ∧
    resolveReply "\x7b\"content\":\"B\",\"message\":\"C\"\x7d"
      (some (.obj [("content", .str "B"), ("message", .str "C")])) = .str "B" ∧
    resolveReply "\x7b\"choices\":[\x7b\"message\":\x7b\"content\":\"D\"\x7d\x7d]\x7d"
      (some (.obj [("choices", .arr [.obj [("message", .obj [("content", .str "D")])]])])) =
      .str "D" ∧
    (∀ raw : String, raw ≠ "" → resolveReply raw none = .str raw) ∧
    (∀ parsed, resolveReply "" parsed = .str "" ∧
      assistantContent (resolveReply "" parsed) = .str "(no content)") := by
  refine ⟨resolveReply_obj, rfl, rfl, rfl, fun raw h => ?_, fun parsed => ⟨rfl, rfl⟩⟩
  simp [resolveReply, h]

/-- Closed witness for `c1_reply_extraction_precedence`: its general
clauses applied at concrete inputs. -/
theorem c1_reply_extraction_precedence_witness :
    resolveReply "\x7b\"message\":\"C\"\x7d" (some (.obj [("message", .str "C")])) =
      replyPrecedenceSpec [("message", .str "C")] "\x7b\"message\":\"C\"\x7d" ∧
    resolveReply "plain" none = .str "plain" :=
  ⟨c1_reply_extraction_precedence.1 [("message", .str "C")] _ (by decide),
   c1_reply_extraction_precedence.2.2.2.2.1 "plain" (by decide)⟩

/-- C10: the probe skips only nullish values — a `null` reply falls
through to the content field; a present empty-string reply is selected
as the resolved text and the appended assistant message then carries
the "(no content)" placeholder; a present non-string reply (number,
object) is selected as-is. -/
theorem c10_nullish_skip_only :
    resolveReply "\x7b\"reply\":null,\"content\":\"B\"\x7d"
      (some (.obj [("reply", .jnull), ("content", .str "B")])) = .str "B" ∧
    resolveReply "\x7b\"reply\":\"\"\x7d"
      (some (.obj [("reply", .str "")])) = .str "" ∧
    assistantContent (resolveReply "\x7b\"reply\":\"\"\x7d"
      (some (.obj [("reply", .str "")]))) = .str "(no content)" ∧
    (send "api" (.success "\x7b\"reply\":\"\"\x7d" (some (.obj [("reply", .str "")])) 3)
        ⟨[], "hi", false, none⟩).1.messages =
      [Msg.mk .user (.str "hi"),
       Msg.mk .assistant (.str "(no content)"),
       Msg.mk .system (.str (statusLine 3 "api"))] ∧
    resolveReply "\x7b\"reply\":7\x7d"
      (some (.obj [("reply", .num 7)])) = .num 7 ∧
    resolveReply "\x7b\"reply\":\x7b\"k\":\"v\"\x7d\x7d"
      (some (.obj [("reply", .obj [("k", .str "v")])])) = .obj [("k", .str "v")] :=
  ⟨rfl, rfl, rfl, rfl, rfl, rfl⟩

/-- C2: a submission with non-empty trimmed input while not busy
appends exactly the user message, then (on success) exactly one
assistant and one system status message in that order; a submission
while busy or with empty trimmed input leaves the state untouched and
issues no request. -/
theorem c2_submission_message_discipline (s : ChatState) (origin raw : String)
    (parsed : Option JVal) (ms : Nat) :
    (s.busy = false → jsTrim s.input ≠ "" →
      (send origin (.success raw parsed ms) s).1.messages =
        s.messages ++
          [Msg.mk .user (.str (jsTrim s.input)),
           Msg.mk .assistant (assistantContent (resolveReply raw parsed)),
           Msg.mk .system (.str (statusLine ms origin))]) ∧
    (∀ outcome, s.busy = true ∨ jsTrim s.input = "" → send origin outcome s = (s, [])) := by
  constructor
  · intro hb ht
    simp [send, ht, hb]
  · intro outcome h
    rcases h with h | h <;> simp [send, h]

/-- Closed witness for `c2_submission_message_discipline` at a concrete
state: an accepted submission appends the three messages; a busy or
whitespace-only submission is a no-op. -/
theorem c2_submission_message_discipline_witness :
    (send "api" (.success "ok" none 7) ⟨[], " hi ", false, none⟩).1.messages =
      [Msg.mk .user (.str "hi"), Msg.mk .assistant (.str "ok"),
       Msg.mk .system (.str (statusLine 7 "api"))] ∧
    send "api" (.failure none) ⟨[], "hi", true, none⟩ = (⟨[], "hi", true, none⟩, []) ∧
    send "api" (.failure none) ⟨[], "   ", false, none⟩ = (⟨[], "   ", false, none⟩, []) := by
  refine ⟨?_, ?_, ?_⟩
  · have h := (c2_submission_message_discipline ⟨[], " hi ", false, none⟩ "api" "ok" none 7).1
      rfl (by decide)
    simpa using h
  · exact (c2_submission_message_discipline ⟨[], "hi", true, none⟩ "api" "x" none 0).2
      (.failure none) (Or.inl rfl)
  · exact (c2_submission_message_discipline ⟨[], "   ", false, none⟩ "api" "x" none 0).2
      (.failure none) (Or.inr (by decide))

/-- C6: on an accepted submission whose fetch throws, exactly one
system failure message is appended after the user message (no
assistant message), a non-empty error string is recorded, and the busy
flag is cleared at the end of both the failure and the success path. -/
theorem c6_transport_failure (s : ChatState) (origin : String) (emsg : Option String)
    (hb : s.busy = false) (ht : jsTrim s.input ≠ "") :
    (send origin (.failure emsg) s).1.messages =
      s.messages ++
        [Msg.mk .user (.str (jsTrim s.input)), Msg.mk .system (.str "× request failed")] ∧
    (send origin (.failure emsg) s).1.err = some (failErr emsg) ∧
    failErr emsg ≠ "" ∧
    (send origin (.failure emsg) s).1.busy = false ∧
    (∀ raw parsed ms, (send origin (.success raw parsed ms) s).1.busy = false) := by
  refine ⟨?_, ?_, ?_, ?_, ?_⟩
  · simp [send, ht, hb]
  · simp [send, ht, hb]
  · cases emsg with
    | none => decide
    | some m =>
      by_cases hm : m = "" <;> simp [failErr, hm]
  · simp [send, ht, hb]
  · intro raw parsed ms; simp [send, ht, hb]

/-- Closed witness for `c6_transport_failure` at a concrete state. -/
theorem c6_transport_failure_witness :
    (send "api" (.failure (some "boom")) ⟨[], "q", false, none⟩).1.messages =
      [Msg.mk .user (.str "q"), Msg.mk .system (.str "× request failed")] ∧
    (send "api" (.failure (some "boom")) ⟨[], "q", false, none⟩).1.err = some "boom" ∧
    (send "api" (.failure (some "boom")) ⟨[], "q", false, none⟩).1.busy = false := by
  have h := c6_transport_failure ⟨[], "q", false, none⟩ "api" (some "boom") rfl (by decide)
  exact ⟨by simpa using h.1, by simpa [failErr] using h.2.1, h.2.2.2.1⟩

/-- C7: an accepted submission issues exactly one POST whose structured
body is `messages` bound to the prior transcript in order, each element
reduced to its role and content, followed by the single new user
element carrying the trimmed input. -/
theorem c7_request_body (s : ChatState) (origin : String) (outcome : FetchOutcome)
    (hb : s.busy = false) (ht : jsTrim s.input ≠ "") :
    (send origin outcome s).2 =
      [JVal.obj [("messages", .arr
        (s.messages.map
            (fun m => .obj [("role", .str (roleStr m.role)), ("content", m.content)]) ++
          [.obj [("role", .str "user"), ("content", .str (jsTrim s.input))]]))]] := by
  cases outcome <;> simp [send, ht, hb, requestBody, wireMsg]

/-- Closed witness for `c7_request_body` at a concrete state with a
non-trivial prior transcript. -/
theorem c7_request_body_witness :
    (send "api" (.success "ok" none 1)
        ⟨[Msg.mk .user (.str "a"), Msg.mk .assistant (.str "b")], "next", false, none⟩).2 =
      [JVal.obj [("messages", .arr
        [.obj [("role", .str "user"), ("content", .str "a")],
         .obj [("role", .str "assistant"), ("content", .str "b")],
         .obj [("role", .str "user"), ("content", .str "next")]])]] := by
  have h := c7_request_body
    ⟨[Msg.mk .user (.str "a"), Msg.mk .assistant (.str "b")], "next", false, none⟩
    "api" (.success "ok" none 1) rfl (by decide)
  simpa using h

/-- Running the scheduled tick chain to completion: from a playing
state whose closure counter is `c`, after the remaining `len - c`
firings the widget is stopped on the last index. -/
theorem tick_run_aux (len : Nat) :
    ∀ (k c : Nat), 1 ≤ k → c + k = len →
      (tick len)^[k] { i := c, playing := true, pending := some c } =
        { i := len - 1, playing := false, pending := none } := by
  intro k
  induction k with
  | zero => intro c hk _; omega
  | succ n ih =>
    intro c _ hc
    rw [Function.iterate_succ_apply]
    rcases Nat.eq_zero_or_pos n with hn | hn
    · subst hn
      have hle : len ≤ c + 1 := by omega
      have hc1 : c = len - 1 := by omega
      subst hc1
      simp [tick, hle]
    · have hlt : ¬ len ≤ c + 1 := by omega
      have h := ih (c + 1) (by omega) (by omega)
      simpa [tick, hlt] using h

/-- C3: pressing Start while playing is a no-op; otherwise it sets
`playing` and resets the index to 0; each firing whose incremented
counter is still below the array length advances the index by one and
reschedules; a firing whose counter has reached the length stops
playback and clears the flag; and a full playback from idle ends with
`playing = false` on the last index. -/
theorem c3_playback (len : Nat) (s : PieState) (c : Nat) :
    (s.playing = true → start s = s) ∧
    (s.playing = false → start s = { i := 0, playing := true, pending := some 0 }) ∧
    (c + 1 < len → tick len { i := c, playing := true, pending := some c } =
      { i := c + 1, playing := true, pending := some (c + 1) }) ∧
    (s.pending = some c → len ≤ c + 1 →
      tick len s = { s with playing := false, pending := none }) ∧
    (1 ≤ len → (tick len)^[len] (start pieInit) =
      { i := len - 1, playing := false, pending := none }) := by
  refine ⟨?_, ?_, ?_, ?_, ?_⟩
  · intro hp; simp [start, hp]
  · intro hp; simp [start, hp]
  · intro hlt; simp [tick, Nat.not_le.mpr hlt]
  · intro hp hle; simp [tick, hp, hle]
  · intro hlen
    have : start pieInit = { i := 0, playing := true, pending := some 0 } := by
      simp [start, pieInit]
    rw [this]
    exact tick_run_aux len len 0 hlen (by omega)

/-- Closed witness for `c3_playback` with a four-day snapshot array:
idempotence while playing, the reset on start, one advancing and one
stopping firing, and a complete playback. -/
theorem c3_playback_witness :
    start { i := 2, playing := true, pending := some 2 } =
      { i := 2, playing := true, pending := some 2 } ∧
    start pieInit = { i := 0, playing := true, pending := some 0 } ∧
    tick 4 { i := 1, playing := true, pending := some 1 } =
      { i := 2, playing := true, pending := some 2 } ∧
    tick 4 { i := 3, playing := true, pending := some 3 } =
      { i := 3, playing := false, pending := none } ∧
    (tick 4)^[4] (start pieInit) = { i := 3, playing := false, pending := none } := by
  have h1 := c3_playback 4 { i := 2, playing := true, pending := some 2 } 0
  have h2 := c3_playback 4 pieInit 1
  have h3 := c3_playback 4 { i := 3, playing := true, pending := some 3 } 3
  exact ⟨h1.1 rfl, h2.2.1 rfl, h2.2.2.1 (by decide),
    h3.2.2.2.1 rfl (by decide), h3.2.2.2.2 (by decide)⟩

/-- Every pie event preserves the index bound for a non-empty array. -/
theorem pieStep_i_lt (len : Nat) (hlen : 1 ≤ len) (op : PieOp) (s : PieState)
    (h : s.i < len) : (pieStep len s op).i < len := by
  obtain ⟨i, playing, pending⟩ := s
  cases op with
  | press =>
    simp only [pieStep, start]
    split_ifs with hp
    · exact h
    · simpa using hlen
  | fire =>
    cases pending with
    | none => simpa [pieStep, tick] using h
    | some c =>
      by_cases hle : len ≤ c + 1
      · simpa [pieStep, tick, hle] using h
      · simp only [pieStep, tick, hle, if_neg, not_false_iff]
        simpa using Nat.lt_of_not_le hle

/-- C9: `BitlockerPie` requires a non-empty `days` array — with an
empty array every render's unconditional `days[i]` field access
faults (modelled by `totalE`); and for a non-empty array every
sequence of Start presses and timer firings keeps the index strictly
below the array length. -/
theorem c9_index_safety :
    (∀ i, totalE [] i = .error ()) ∧
    (∀ (days : List Day) (ops : List PieOp), days ≠ [] →
      (pieRun days.length ops pieInit).i < days.length) := by
  constructor
  · intro i; cases i <;> rfl
  · intro days ops hne
    have hlen : 1 ≤ days.length := List.length_pos.mpr hne
    have aux : ∀ (l : List PieOp) (s : PieState), s.i < days.length →
        (pieRun days.length l s).i < days.length := by
      intro l
      induction l with
      | nil => intro s h; exact h
      | cons op rest ih =>
        intro s h
        exact ih _ (pieStep_i_lt _ hlen op s h)
    exact aux ops pieInit hlen

/-- Closed witness for `c9_index_safety`: two renders of the empty
array fault, and a concrete event sequence on a two-day array keeps
the index in bounds. -/
theorem c9_index_safety_witness :
    totalE [] 0 = .error () ∧
    (pieRun 2 [.press, .fire, .fire, .press] pieInit).i < 2 :=
  ⟨c9_index_safety.1 0,
   c9_index_safety.2 [⟨1, 5, 3, 2⟩, ⟨2, 6, 2, 2⟩] [.press, .fire, .fire, .press]
     (by simp)⟩

/-- C5: for every day snapshot with a positive count sum the three pie
fractions (each count over `max 1 sum`) sum to exactly 1; for the
all-zero snapshot the floor-of-1 denominator yields fraction 0 for all
three segments (no division by zero). -/
theorem c5_pie_fractions (d : Day) :
    (0 < d.encrypted + d.pending + d.failed → ((segs d).map Seg.frac).sum = 1) ∧
    (d.encrypted = 0 → d.pending = 0 → d.failed = 0 → ∀ sg ∈ segs d, sg.frac = 0) := by
  constructor
  · intro h
    have htotN : total d = d.encrypted + d.pending + d.failed := by
      unfold total; omega
    have hne : (total d : ℚ) ≠ 0 := by
      rw [htotN]
      exact_mod_cast h.ne'
    simp only [segs, List.map_cons, List.map_nil, List.sum_cons, List.sum_nil, frac,
      add_zero]
    rw [div_add_div_same, div_add_div_same, div_eq_one_iff_eq hne, htotN]
    push_cast
    ring
  · intro he hp hf sg hsg
    have htot : total d = 1 := by unfold total; omega
    simp only [segs, List.mem_cons, List.mem_singleton] at hsg
    rcases hsg with rfl | rfl | rfl | h
    · simp [frac, he]
    · simp [frac, hp]
    · simp [frac, hf]
    · cases h

/-- Closed witness for `c5_pie_fractions`: a mixed snapshot sums to 1
and the all-zero snapshot yields zero fractions. -/
theorem c5_pie_fractions_witness :
    ((segs ⟨1, 5, 3, 2⟩).map Seg.frac).sum = 1 ∧
    ∀ sg ∈ segs ⟨4, 0, 0, 0⟩, sg.frac = 0 :=
  ⟨(c5_pie_fractions ⟨1, 5, 3, 2⟩).1 (by decide),
   (c5_pie_fractions ⟨4, 0, 0, 0⟩).2 rfl rfl rfl⟩

/-- Concatenation with a non-empty left part is a non-empty string. -/
theorem append_ne_empty_left (a b : String) (ha : a ≠ "") : a ++ b ≠ "" := by
  intro h
  apply ha
  have hd := congrArg String.data h
  rw [String.data_append] at hd
  have hnil : a.data = [] := (List.append_eq_nil.mp (by simpa using hd)).1
  exact String.ext (by simpa using hnil)

/-- Every click appends exactly the call result to the history. -/
theorem run_history (root path : String) (outcome : HttpOutcome) (ms : Nat)
    (at_ : String) (s : PanelState) :
    (run root path outcome ms at_ s).history =
      s.history ++ [call (root ++ path) outcome ms at_] := by
  simp only [run]
  split_ifs <;> rfl

/-- C4: every non-exception response (any status) completes into a
history entry whose `ok` field is the HTTP ok indicator; an HTTP 200
response gives an entry with `ok = true`, `status = 200` and leaves
the panel error unset; a fetch exception gives an entry with
`ok = false`, `status = 0` and sets a non-empty panel error string. -/
theorem c4_diagnostics_outcomes (root path stx raw : String) (st ms : Nat)
    (at_ : String) (parsed : Option JVal) (emsg : Option String) (s : PanelState) :
    ((run root path (.response st stx raw parsed) ms at_ s).history =
      s.history ++ [call (root ++ path) (.response st stx raw parsed) ms at_] ∧
     (call (root ++ path) (.response st stx raw parsed) ms at_).ok = respOk st) ∧
    ((call (root ++ path) (.response 200 stx raw parsed) ms at_).ok = true ∧
     (call (root ++ path) (.response 200 stx raw parsed) ms at_).status = 200 ∧
     (run root path (.response 200 stx raw parsed) ms at_ s).error = none) ∧
    ((call (root ++ path) (.exception emsg) ms at_).ok = false ∧
     (call (root ++ path) (.exception emsg) ms at_).status = 0 ∧
     ∃ e, (run root path (.exception emsg) ms at_ s).error = some e ∧ e ≠ "") := by
  refine ⟨⟨run_history _ _ _ _ _ _, ?_⟩, ⟨?_, ?_, ?_⟩, ⟨?_, ?_, ?_⟩⟩
  · cases hraw : raw == "" <;> simp [call]
  · simp [call, respOk]
  · simp [call]
  · simp [run, call, respOk]
  · simp [call]
  · simp [call]
  · refine ⟨"Request failed (" ++
      toString (call (root ++ path) (.exception emsg) ms at_).status ++ " " ++
      (call (root ++ path) (.exception emsg) ms at_).statusText ++ ")", ?_, ?_⟩
    · simp [run, call]
    · rw [String.append_assoc, String.append_assoc, String.append_assoc]
      exact append_ne_empty_left _ _ (by decide)

/-- C8: the chat transcript and the diagnostics history are
append-only — one submission and one click extend their sequence at
the end, and over any sequence of operations the earlier state's
sequence is a prefix of the later one. -/
theorem c8_append_only :
    (∀ (s : ChatState) (origin : String) (outcome : FetchOutcome),
      s.messages <+: (send origin outcome s).1.messages) ∧
    (∀ (p : PanelState) (root path : String) (outcome : HttpOutcome) (ms : Nat)
      (at_ : String), p.history <+: (run root path outcome ms at_ p).history) ∧
    (∀ (evs : List (String × FetchOutcome)) (s : ChatState),
      s.messages <+: (chatRun evs s).messages) ∧
    (∀ (root : String) (evs : List PanelEvent) (p : PanelState),
      p.history <+: (panelRun root evs p).history) := by
  have hsend : ∀ (s : ChatState) (origin : String) (outcome : FetchOutcome),
      s.messages <+: (send origin outcome s).1.messages := by
    intro s origin outcome
    by_cases h : jsTrim s.input = "" ∨ s.busy = true
    · exact ⟨[], by simp [send, h]⟩
    · cases outcome with
      | success raw parsed ms =>
        exact ⟨[Msg.mk .user (.str (jsTrim s.input)),
          Msg.mk .assistant (assistantContent (resolveReply raw parsed)),
          Msg.mk .system (.str (statusLine ms origin))], by simp [send, h]⟩
      | failure emsg =>
        exact ⟨[Msg.mk .user (.str (jsTrim s.input)),
          Msg.mk .system (.str "× request failed")], by simp [send, h]⟩
  have hrun : ∀ (p : PanelState) (root path : String) (outcome : HttpOutcome)
      (ms : Nat) (at_ : String),
      p.history <+: (run root path outcome ms at_ p).history := by
    intro p root path outcome ms at_
    exact ⟨[call (root ++ path) outcome ms at_], (run_history _ _ _ _ _ _).symm⟩
  refine ⟨hsend, hrun, ?_, ?_⟩
  · intro evs
    induction evs with
    | nil => intro s; exact ⟨[], List.append_nil _⟩
    | cons ev rest ih =>
      intro s
      exact (hsend s ev.1 ev.2).trans (ih ((send ev.1 ev.2 s).1))
  · intro root evs
    induction evs with
    | nil => intro p; exact ⟨[], List.append_nil _⟩
    | cons ev rest ih =>
      intro p
      exact (hrun p root ev.path ev.outcome ev.timeMs ev.at_).trans
        (ih (run root ev.path ev.outcome ev.timeMs ev.at_ p))

end Site
